import Mathlib

/- A shallow embedding of the turtl-js-api validation and dispatch core
(src/Module/TurtlAPI.js, TurtlAPIService.js, TurtlEndpoint.js,
TurtlRequestModel.js, TurtlResponse.js — the latest module generation, the
one the built bundle exports), together with theorems checking the
specification's claims about it.

JavaScript is modelled as follows: runtime values become the inductive
`JValue` (numbers as integers; promises and awaitables are collapsed to
their resolved values; functions are typed Lean functions where the code
stores them in known slots); a thrown exception becomes `Except.error`
carrying the error message ("TypeError" for a property access on
`undefined`); a `Map` becomes an insertion-ordered association list; a
plain object's string-keyed own properties become an association list as
well. The XMLHttpRequest transport is an external collaborator: its
round-trip outcome (the envelope produced by the onload/onerror/ontimeout
handlers) is passed in as the `net` parameter, and a ghost `Effects` record
tracks which observable steps ran (whether `xhr.send` was reached, how many
mock console groups were emitted, which mock branch was taken, whether the
dispatch stage was entered, how many model-factory lookups and schema
validations happened). -/

namespace Turtl

/-- A JavaScript runtime value, as far as the validation core inspects one:
`undefined`, `null`, booleans, numbers (modelled as integers), strings,
arrays, and plain objects carrying an optional class tag (for `instanceof`)
and string-keyed own properties. -/
inductive JValue where
  | undefined
  | null
  | boolean (b : Bool)
  | num (n : Int)
  | str (s : String)
  | arr (items : List JValue)
  | obj (cls : Option String) (fields : List (String × JValue))

/-- The empty plain object `{}`. -/
def emptyObj : JValue := .obj none []

/-- JavaScript truthiness of a value (`if (value)`). NaN does not arise in
the modelled fragment. -/
def jsTruthy : JValue → Bool
  | .undefined => false
  | .null => false
  | .boolean b => b
  | .num n => n != 0
  | .str s => s != ""
  | .arr _ => true
  | .obj _ _ => true

/-- `typeof value`. -/
def jsTypeof : JValue → String
  | .undefined => "undefined"
  | .null => "object"
  | .boolean _ => "boolean"
  | .num _ => "number"
  | .str _ => "string"
  | .arr _ => "object"
  | .obj _ _ => "object"

/-- String coercion of a value, used where the code feeds a value to a
regular-expression test or into a template string. Arrays join their items;
that case is not exercised by any claim and is approximated by the empty
string. -/
def jsToString : JValue → String
  | .undefined => "undefined"
  | .null => "null"
  | .boolean b => if b then "true" else "false"
  | .num n => toString n
  | .str s => s
  | .arr _ => ""
  | .obj _ _ => "[object Object]"

/-- Lookup in an insertion-ordered association list (a JS `Map.get`, or a
plain object's own string-keyed property read). -/
def mapGet (m : List (String × α)) (k : String) : Option α :=
  match m with
  | [] => none
  | (k2, v) :: rest => if k2 = k then some v else mapGet rest k

/-- `Map.has`. -/
def mapHas (m : List (String × α)) (k : String) : Bool :=
  (mapGet m k).isSome

/-- `Map.set`: replaces the value of an existing key in place (keeping the
insertion order) or appends a new entry. -/
def mapSet (m : List (String × α)) (k : String) (v : α) : List (String × α) :=
  match m with
  | [] => [(k, v)]
  | (k2, v2) :: rest => if k2 = k then (k2, v) :: rest else (k2, v2) :: mapSet rest k v

/-- Property names found on `Object.prototype`: the JavaScript `in` operator
applied to a plain object consults inherited properties as well as own
keys. -/
def objectProtoProps : List String :=
  ["constructor", "hasOwnProperty", "isPrototypeOf", "propertyIsEnumerable",
   "toLocaleString", "toString", "valueOf", "__proto__", "__defineGetter__",
   "__defineSetter__", "__lookupGetter__", "__lookupSetter__"]

/-- Property names found on `Map.prototype` (plus the inherited
`Object.prototype` ones): what `name in someMap` actually consults — never
the map's entries. -/
def mapProtoProps : List String :=
  ["get", "set", "has", "delete", "clear", "forEach", "keys", "values",
   "entries", "size"] ++ objectProtoProps

/-- `name in m` for a JavaScript `Map` m: true exactly when `name` is a
property of the Map object itself, independent of the entries stored. -/
def jsMapIn (name : String) : Bool := mapProtoProps.contains name

/-- `key in obj` for a plain object whose own string-keyed properties are
`obj`: own keys or inherited `Object.prototype` properties. -/
def jsObjIn (k : String) (obj : List (String × String)) : Bool :=
  obj.any (fun p => p.1 == k) || objectProtoProps.contains k

/-- The Response Envelope (TurtlResponse.js): a success flag, a message and
a data payload. -/
structure TurtlResponse where
  success : Bool
  message : String
  data : JValue

/-- `TurtlResponse.Error(message)`: success false, empty data. -/
def TurtlResponse.Error (message : String) : TurtlResponse :=
  { success := false, message := message, data := emptyObj }

/-- `TurtlResponse.Success(message = "", data = {})`. -/
def TurtlResponse.Success (message : String := "") (data : JValue := emptyObj) :
    TurtlResponse :=
  { success := true, message := message, data := data }

/-- `TurtlResponse.fromJson(json)`: missing fields default to
`false` / `""` / `{}`. The argument models the parsed JSON object's three
relevant properties. -/
def TurtlResponse.fromJson (success : Option Bool) (message : Option String)
    (data : Option JValue) : TurtlResponse :=
  { success := success.getD false, message := message.getD "", data := data.getD emptyObj }

/-- The `type` option of the `arrayOf` / `instanceOf` / `typeOf` rules:
either a primitive type name (compared against `typeof`) or a constructor
function, identified here by its class name (used with `instanceof`). -/
inductive JSTypeSpec where
  | prim (name : String)
  | cls (name : String)

/-- The options object handed to a validation rule, holding the fields the
built-in rules read. `errors` is kept as a raw value because the code
guards it with `Array.isArray`. -/
structure RuleOptions where
  errors : JValue := .undefined
  length : Option Int := none
  type : Option JSTypeSpec := none
  isTypeClass : Bool := false

/-- The own data properties merged onto a request-model instance
(`Object.assign(this, data)`). -/
abbrev ModelFields := List (String × JValue)

/-- A validation rule function `(value, instance, options) => TurtlResponse`.
The instance argument carries the model's data fields for cross-field
rules. (The code tolerates rules returning a non-envelope — such a result
counts as a pass; rules stored through this model always return an
envelope, which is also what every rule of the repository does.) -/
abbrev RuleFn := JValue → ModelFields → RuleOptions → TurtlResponse

/-- The dispatcher's validation-rule registry (a `Map<string, Function>`). -/
abbrev Registry := List (String × RuleFn)

/-- `instance[key]`: an absent property reads as `undefined`. -/
def jsGet (fields : ModelFields) (k : String) : JValue :=
  (mapGet fields k).getD .undefined

/-- `TurtlRequestModel.getErrorMessage(index, defaultMessage, options)`: pick
`options.errors[index]` when `options.errors` is an array long enough and
the entry is truthy, else the default. (This is the class method; the shim
installed by `validateFields` only applies to instances lacking the method
and computes the same value.) -/
def getErrorMessage (index : Nat) (defaultMessage : String) (options : RuleOptions) :
    String :=
  match (if jsTruthy options.errors then options.errors else JValue.arr []) with
  | .arr items =>
    match items.get? index with
    | some v => if jsTruthy v then jsToString v else defaultMessage
    | none => defaultMessage
  | _ => defaultMessage

/-- Built-in rule `required` (TurtlAPI.js constructor): fails when the value
is `undefined`, `null` or the empty string. -/
def requiredRule : RuleFn := fun value _ options =>
  match value with
  | .undefined | .null | .str "" =>
      TurtlResponse.Error (getErrorMessage 0 "Field is required." options)
  | _ => TurtlResponse.Success

/-- A character matching the `[^\s@]` class of the email pattern.
JavaScript whitespace is approximated by `Char.isWhitespace`. -/
def emailChunkChar (c : Char) : Bool := !(c.isWhitespace || c == '@')

/-- Whether the anchored pattern of the `email` rule matches `s`: one or
more non-space non-at characters, an at sign, the same, a dot, the same.
Since all three chunks exclude the at sign, a match forces exactly one at
sign, and the part after it must carry a dot that is neither its first nor
its last character. -/
def emailRegexTest (s : String) : Bool :=
  match s.splitOn "@" with
  | [a, b] =>
      a != "" && a.toList.all emailChunkChar && b != "" &&
      b.toList.all emailChunkChar && ((b.toList.drop 1).dropLast.contains '.')
  | _ => false

/-- Built-in rule `email`: fails when the value is truthy and the pattern
does not match its string coercion. -/
def emailRule : RuleFn := fun value _ options =>
  if jsTruthy value && !(emailRegexTest (jsToString value)) then
    TurtlResponse.Error (getErrorMessage 0 "Must be a valid email." options)
  else TurtlResponse.Success

/-- How `options.length` renders inside the template string of the
`minLength` failure message. -/
def lengthText : Option Int → String
  | some n => toString n
  | none => "undefined"

/-- Built-in rule `minLength`: only strings are checked, against
`options.length || 0`. -/
def minLengthRule : RuleFn := fun value _ options =>
  match value with
  | .str s =>
      if (s.length : Int) < options.length.getD 0 then
        TurtlResponse.Error
          (getErrorMessage 0 ("Minimum length is " ++ lengthText options.length ++ ".")
            options)
      else TurtlResponse.Success
  | _ => TurtlResponse.Success

/-- The display name of a type spec (`type.name` for a class, the string
itself for a primitive name). -/
def typeSpecName : JSTypeSpec → String
  | .prim n => n
  | .cls n => n

/-- `item instanceof type`. The prototype chain is not modelled: an object
is an instance exactly of its own class tag, which is all the repository's
schemas rely on. A primitive type spec never matches (in JavaScript it
would throw; no claim exercises that path). -/
def jsInstanceOf (item : JValue) : JSTypeSpec → Bool
  | .cls n =>
      match item with
      | .obj (some c) _ => c == n
      | _ => false
  | .prim _ => false

/-- `typeof item === type`: meaningful for a primitive type name; comparing
`typeof` output with a constructor function is never true. -/
def typeofCompare (item : JValue) : JSTypeSpec → Bool
  | .prim n => jsTypeof item == n
  | .cls _ => false

/-- The per-item loop of the `arrayOf` rule. -/
def arrayOfItems (t : JSTypeSpec) (isTypeClass : Bool) (options : RuleOptions) :
    List JValue → TurtlResponse
  | [] => TurtlResponse.Success
  | item :: rest =>
      if isTypeClass then
        if !(jsInstanceOf item t) then
          TurtlResponse.Error
            (getErrorMessage 2
              ("Array item must be an instance of '" ++ typeSpecName t ++
                "', but got '" ++ jsTypeof item ++ "'.") options)
        else arrayOfItems t isTypeClass options rest
      else
        if !(typeofCompare item t) then
          TurtlResponse.Error
            (getErrorMessage 3
              ("Array item must be of type '" ++ typeSpecName t ++
                "', but got '" ++ jsTypeof item ++ "'.") options)
        else arrayOfItems t isTypeClass options rest

/-- Built-in rule `arrayOf`. -/
def arrayOfRule : RuleFn := fun value _ options =>
  match value with
  | .arr items =>
      match options.type with
      | none => TurtlResponse.Error "No type specified for arrayOf rule."
      | some t => arrayOfItems t options.isTypeClass options items
  | _ => TurtlResponse.Error (getErrorMessage 0 "Value must be an array." options)

/-- Built-in rule `instanceOf`. -/
def instanceOfRule : RuleFn := fun value _ options =>
  match options.type with
  | none => TurtlResponse.Error "No type specified for InstanceOf rule."
  | some t =>
      if !(jsInstanceOf value t) then
        TurtlResponse.Error
          (getErrorMessage 0
            ("Value must be an instance of '" ++ typeSpecName t ++
              "', but got '" ++ jsTypeof value ++ "'.") options)
      else TurtlResponse.Success

/-- Built-in rule `typeOf`. -/
def typeOfRule : RuleFn := fun value _ options =>
  match options.type with
  | none => TurtlResponse.Error "No type specified for TypeOf rule."
  | some t =>
      if !(typeofCompare value t) then
        TurtlResponse.Error
          (getErrorMessage 0
            ("Value must be of type '" ++ typeSpecName t ++
              "', but got '" ++ jsTypeof value ++ "'.") options)
      else TurtlResponse.Success

/-- `TurtlAPI.registerValidationRule(name, fn)` acting on the rules map:
returns the updated map and the number of console warnings emitted by this
call. The source guards the warning with `name in this.validationRules`,
and `validationRules` is a `Map`: the `in` operator consults the Map
object's properties (`jsMapIn`), never its entries. -/
def registerValidationRule (rules : Registry) (name : String) (fn : RuleFn) :
    Registry × Nat :=
  (mapSet rules name fn, if jsMapIn name then 1 else 0)

/-- `TurtlAPI.getValidationRule(name)`: returns the function or throws
`Error("Validation rule not found: " + name)`. -/
def getValidationRule (rules : Registry) (name : String) : Except String RuleFn :=
  match mapGet rules name with
  | some fn => .ok fn
  | none => .error ("Validation rule not found: " ++ name)

/-- The registry built by the `TurtlAPI` constructor: the six built-in rules
registered in source order through `registerValidationRule`. -/
def builtinRules : Registry :=
  let (r, _) := registerValidationRule [] "required" requiredRule
  let (r, _) := registerValidationRule r "email" emailRule
  let (r, _) := registerValidationRule r "minLength" minLengthRule
  let (r, _) := registerValidationRule r "arrayOf" arrayOfRule
  let (r, _) := registerValidationRule r "instanceOf" instanceOfRule
  let (r, _) := registerValidationRule r "typeOf" typeOfRule
  r

/-- One rule application in a schema: `{rule: string, options?: object}`. -/
structure RuleEntry where
  rule : String
  options : Option RuleOptions := none

/-- A schema entry's value: normally an ordered array of rule applications;
`notArray` models any other value, which `validateFields` rejects. -/
inductive SchemaVal where
  | rules (entries : List RuleEntry)
  | notArray (v : JValue)

/-- A schema: field names mapped, in declaration (for-in) order, to their
rule lists. -/
abbrev Schema := List (String × SchemaVal)

/-- Ghost instrumentation: one `(field, rule)` pair per validator invocation,
in invocation order. It records which rules actually ran and carries no
information back into the embedded code. -/
abbrev Trace := List (String × String)

/-- The inner loop of `TurtlRequestModel.validateFields` over one field's
rule list. `api` is the optional dispatcher reference: when it is absent,
`api?.getValidationRule(...)` is `undefined`, the `typeof` guard fails and
the "not registered" envelope is returned; when it is present, the lookup
itself may throw (propagated as `.error`). Returns `some failure` as soon
as a rule fails, together with the trace of rules that ran. -/
def runFieldRules (api : Option Registry) (key : String) (value : JValue)
    (inst : ModelFields) : List RuleEntry → Except String (Option TurtlResponse × Trace)
  | [] => .ok (none, [])
  | entry :: rest =>
      let options := entry.options.getD {}
      match api with
      | none =>
          .ok (some (TurtlResponse.Error
            ("Validation rule '" ++ entry.rule ++ "' not registered.")), [])
      | some rules =>
          match getValidationRule rules entry.rule with
          | .error e => .error e
          | .ok validator =>
              let result := validator value inst options
              if !result.success then .ok (some result, [(key, entry.rule)])
              else
                match runFieldRules api key value inst rest with
                | .error e => .error e
                | .ok (res, tr) => .ok (res, (key, entry.rule) :: tr)

/-- The outer loop of `TurtlRequestModel.validateFields` over the schema's
fields, in declaration order: a non-array schema value fails the whole
validation, and the first failing rule's envelope is adopted and stops
everything. -/
def validateFieldsGo (api : Option Registry) (inst : ModelFields) :
    Schema → Except String (TurtlResponse × Trace)
  | [] => .ok (TurtlResponse.Success, [])
  | (key, sval) :: rest =>
      match sval with
      | .notArray _ =>
          .ok (TurtlResponse.Error ("Schema for field '" ++ key ++ "' must be an array."), [])
      | .rules entries =>
          match runFieldRules api key (jsGet inst key) inst entries with
          | .error e => .error e
          | .ok (some failure, tr) => .ok (failure, tr)
          | .ok (none, tr) =>
              match validateFieldsGo api inst rest with
              | .error e => .error e
              | .ok (res, tr2) => .ok (res, tr ++ tr2)

/-- `TurtlRequestModel.validateFields(schema, instance, api)` (argument
order as in the source). The `getErrorMessage` shim the source installs
first only applies to instances lacking the class method and computes the
same value, so it has no observable effect here. -/
def validateFields (schema : Schema) (inst : ModelFields) (api : Option Registry) :
    Except String (TurtlResponse × Trace) :=
  validateFieldsGo api inst schema

/-- A custom cross-field validator supplied at factory-creation time: the
source calls it with the instance and accepts `null` (here `none`) or an
envelope back. -/
abbrev CustomValidator := ModelFields → Option TurtlResponse

/-- A constructed `TurtlRequestModel` instance: the caller-supplied own data
properties, the `_schema` reference, and the validation outcome
(`validateResult` / `isValid`), computed once at construction. The
`_customValidator` and `_api` references are not needed after construction
and are not stored. -/
structure ModelState where
  fields : ModelFields
  schema : Schema
  validateResult : TurtlResponse
  isValid : Bool

/-- The `TurtlRequestModel` constructor: merge the data onto the instance,
run `validateFields` (its thrown errors propagate), run the custom
validator, and store the authoritative envelope and validity flag. -/
def mkRequestModel (data : ModelFields) (schema : Schema)
    (customValidator : Option CustomValidator) (api : Option Registry) :
    Except String ModelState :=
  match validateFields schema data api with
  | .error e => .error e
  | .ok (result, _) =>
      let custom : Option TurtlResponse :=
        match customValidator with
        | some f => f data
        | none => none
      if !result.success then
        .ok { fields := data, schema := schema, validateResult := result, isValid := false }
      else
        match custom with
        | some c =>
            if !c.success then
              .ok { fields := data, schema := schema, validateResult := c, isValid := false }
            else
              .ok { fields := data, schema := schema,
                    validateResult := TurtlResponse.Success "Validation successful" emptyObj,
                    isValid := true }
        | none =>
            .ok { fields := data, schema := schema,
                  validateResult := TurtlResponse.Success "Validation successful" emptyObj,
                  isValid := true }

/-- The keys `toDataObject` filters out of the instance's own enumerable
properties (latest generation of TurtlRequestModel, the one the bundle
exports). -/
def excludedKeys : List String :=
  ["_schema", "_customValidator", "_api", "validateResult", "isValid", "getErrorMessage"]

/-- `TurtlRequestModel.toDataObject()`: the for-in loop visits the own
enumerable properties (`_schema`, `_customValidator`, `_api`, the data
fields, `validateResult`, `isValid` — class methods are not enumerable) and
keeps those whose key is not in `excludedKeys`; the non-data properties are
all excluded by name, so the result is the data fields minus the excluded
names. -/
def toDataObject (m : ModelState) : ModelFields :=
  m.fields.filter (fun p => !(excludedKeys.contains p.1))

/-- `TurtlRequestModel.createFactory(schema, customValidator)`: the factory
pairs the schema with the optional custom validator. -/
structure ModelFactory where
  schema : Schema
  customValidator : Option CustomValidator := none

/-- The factory's `create(data, api)`. -/
def ModelFactory.create (f : ModelFactory) (data : ModelFields) (api : Option Registry) :
    Except String ModelState :=
  mkRequestModel data f.schema f.customValidator api

/-- An object passed to `call` that passes the model test (its `_schema`
property is a defined object) without being a `TurtlRequestModel` instance:
`call` reads whatever `isValid` and `validateResult` properties it carries
(absent reads as `undefined`), and it has no `toDataObject` method. -/
structure PseudoModel where
  isValid : JValue := .undefined
  validateResult : JValue := .undefined
  fields : ModelFields := []

/-- What flows through `#callWithModel` / `#prepareSendRequest` as the
request model: a real `TurtlRequestModel` instance or a pseudo-model
object. -/
inductive ModelLike where
  | real (m : ModelState)
  | pseudo (p : PseudoModel)

/-- A configured mock response: a function of the model, or a present
non-function value (an awaitable is modelled by its resolved value; `null`
and `undefined` are `none` at the endpoint field). -/
inductive MockVal where
  | fn (f : ModelLike → TurtlResponse)
  | val (r : TurtlResponse)

/-- An Endpoint Descriptor (TurtlEndpoint.js) with the constructor's
defaults. Headers are a plain object: an insertion-ordered string map. -/
structure Endpoint where
  name : String
  path : String
  method : String := "POST"
  modelName : String := "empty"
  requiresAuth : Bool := false
  mockResponseSuccess : Option MockVal := none
  mockResponseFailure : Option MockVal := none
  headers : List (String × String) := []

/-- A Service (TurtlAPIService.js): endpoint and model-factory maps plus
service-level headers. The constructor pre-seeds the `empty` model
factory. -/
structure Service where
  name : String
  basePath : String
  endpoints : List (String × Endpoint) := []
  Models : List (String × ModelFactory) := [("empty", { schema := [] })]
  headers : List (String × String) := []

/-- The header-merge loop shared by `getEndpoint` and `call`: for each
entry of the map `m` in order, write it into the object `obj` when
`key in obj` is false. The `in` operator sees own keys and inherited
`Object.prototype` properties, and each write is visible to the following
iterations. -/
def jsObjMergeAbsent (obj : List (String × String)) (m : List (String × String)) :
    List (String × String) :=
  m.foldl (fun acc kv => if jsObjIn kv.1 acc then acc else acc ++ [kv]) obj

/-- `TurtlAPIService.getEndpoint(name)`: looks the endpoint up, then merges
the service headers into the endpoint's own header object in place (the
stored descriptor is mutated, which the returned updated service records).
When the lookup misses, `endpoint` is `undefined`: with a non-empty service
header map the loop body reads `endpoint.headers` and throws a TypeError;
with an empty map the loop never runs and `undefined` is returned. The
`name` argument is `none` when `call` destructured no endpoint part out of
the full name. -/
def getEndpoint (service : Service) (name : Option String) :
    Except String (Option Endpoint × Service) :=
  match name with
  | none =>
      if service.headers.isEmpty then .ok (none, service) else .error "TypeError"
  | some n =>
      match mapGet service.endpoints n with
      | none =>
          if service.headers.isEmpty then .ok (none, service) else .error "TypeError"
      | some e =>
          let merged : Endpoint := { e with headers := jsObjMergeAbsent e.headers service.headers }
          .ok (some merged, { service with endpoints := mapSet service.endpoints n merged })

/-- The Dispatcher (TurtlAPI.js). `getAuthToken` is `none` when no provider
was configured, `some t` for a provider returning `t` (`t = none` models a
provider returning `null`). The constructor seeds `validationRules` with
the built-ins. -/
structure TurtlAPI where
  host : String
  getAuthToken : Option (Option String) := none
  services : List (String × Service) := []
  validationRules : Registry := builtinRules
  mock : Bool := false
  headers : List (String × String) := []

/-- The `TurtlAPI` constructor. -/
def mkTurtlAPI (host : String) (getAuthToken : Option (Option String) := none)
    (mock : Bool := false) : TurtlAPI :=
  { host := host, getAuthToken := getAuthToken, services := [],
    validationRules := builtinRules, mock := mock, headers := [] }

/-- Ghost observability for one `call` invocation: whether `xhr.send` was
reached, how many mock console groups were produced, which mock branch was
taken (if any), whether `#prepareSendRequest` (the dispatch stage past the
validity gate) was entered, and how many model-factory lookups and schema
validations ran. -/
structure Effects where
  transportSent : Bool := false
  mockLogs : Nat := 0
  mockBranchSuccess : Option Bool := none
  dispatched : Bool := false
  factoryLookups : Nat := 0
  validationsRun : Nat := 0
deriving DecidableEq

/-- The truthiness of `getAuthToken ? getAuthToken() : null` (the empty
string is falsy). -/
def hasToken : Option (Option String) → Bool
  | some (some t) => t != ""
  | _ => false

/-- The resolved value of `TurtlAPI.#sendRequest`, plus whether `xhr.send`
executed. When auth is required and the token is falsy, the promise
resolves to the "Authentication required." envelope before sending. `net`
abstracts the transport round-trip: the envelope the
onload/onerror/ontimeout handlers produce (a parsed `fromJson` result,
"Invalid response", "Network error" or "Request timed out."). -/
structure SendResult where
  response : TurtlResponse
  sent : Bool

def sendRequest (method url : String) (body : ModelFields) (requiresAuth : Bool)
    (getAuthToken : Option (Option String)) (headers : List (String × String))
    (net : TurtlResponse) : SendResult :=
  if requiresAuth then
    if hasToken getAuthToken then { response := net, sent := true }
    else { response := TurtlResponse.Error "Authentication required.", sent := false }
  else { response := net, sent := true }

/-- `model.toDataObject()` on whatever flows through the pipeline as the
model: a pseudo-model is a plain object without the method, so the call
throws a TypeError. -/
def toDataObjectEx : ModelLike → Except String ModelFields
  | .real m => .ok (toDataObject m)
  | .pseudo _ => .error "TypeError"

/-- The validity gate's reading of `requestModel.isValid` (plain truthiness
for a pseudo-model). -/
def modelIsValid : ModelLike → Bool
  | .real m => m.isValid
  | .pseudo p => jsTruthy p.isValid

/-- What `call` may return: an envelope, or — when the validity gate
returns a pseudo-model's `validateResult` property as-is — an arbitrary
value. -/
inductive CallRet where
  | env (r : TurtlResponse)
  | jsval (v : JValue)

/-- The stored `validateResult` the validity gate returns. -/
def modelValidateResult : ModelLike → CallRet
  | .real m => .env m.validateResult
  | .pseudo p => .jsval p.validateResult

/-- `TurtlAPI.#createMockResponse`: logs the method, path, the serialized
request model (`model.toDataObject()` — throws on a pseudo-model), the
branch and the response, then returns the response. -/
def createMockResponse (model : ModelLike) (response : TurtlResponse) :
    Except String TurtlResponse × Effects :=
  match toDataObjectEx model with
  | .ok _ => (.ok response, { mockLogs := 1 })
  | .error e => (.error e, {})

/-- `TurtlAPI.#prepareSendRequest`: in mock mode, branch on `mockResult`,
resolve the configured mock value (function of the model / present value /
generic default) and log it; otherwise build the URL and issue the
transport request. The argument-evaluation of `model.toDataObject()`
happens inside the `try`, so its TypeError on a pseudo-model is caught and
becomes the "Request failed" envelope. -/
def prepareSendRequest (api : TurtlAPI) (model : ModelLike) (service : Service)
    (endpoint : Endpoint) (mockResult : Bool) (net : TurtlResponse) :
    Except String TurtlResponse × Effects :=
  if api.mock then
    if mockResult then
      let resp : TurtlResponse :=
        match endpoint.mockResponseSuccess with
        | some (.fn f) => f model
        | some (.val r) => r
        | none => TurtlResponse.Success "Mocked response" emptyObj
      let (out, eff) := createMockResponse model resp
      (out, { eff with dispatched := true, mockBranchSuccess := some true })
    else
      let resp : TurtlResponse :=
        match endpoint.mockResponseFailure with
        | some (.fn f) => f model
        | some (.val r) => r
        | none => TurtlResponse.Error "Mocked failure response"
      let (out, eff) := createMockResponse model resp
      (out, { eff with dispatched := true, mockBranchSuccess := some false })
  else
    match toDataObjectEx model with
    | .error _ => (.ok (TurtlResponse.Error "Request failed"), { dispatched := true })
    | .ok body =>
        let r := sendRequest endpoint.method (api.host ++ service.basePath ++ endpoint.path)
          body endpoint.requiresAuth api.getAuthToken endpoint.headers net
        (.ok r.response, { dispatched := true, transportSent := r.sent })

/-- `TurtlAPI.#callWithModel`: the validity gate, then the dispatch stage. -/
def callWithModel (api : TurtlAPI) (model : ModelLike) (service : Service)
    (endpoint : Endpoint) (mockResult : Bool) (net : TurtlResponse) :
    Except String CallRet × Effects :=
  if !(modelIsValid model) then (.ok (modelValidateResult model), {})
  else
    let (out, eff) := prepareSendRequest api model service endpoint mockResult net
    (out.map CallRet.env, eff)

/-- `TurtlAPI.#callWithData`: look the model factory up, construct and
validate a model (injecting the dispatcher's registry), and continue with
it; without a resolvable factory return the "Invalid data" envelope. -/
def callWithData (api : TurtlAPI) (data : ModelFields) (service : Service)
    (endpoint : Endpoint) (mockResult : Bool) (net : TurtlResponse) :
    Except String CallRet × Effects :=
  match mapGet service.Models endpoint.modelName with
  | some factory =>
      match factory.create data (some api.validationRules) with
      | .error e => (.error e, { factoryLookups := 1, validationsRun := 1 })
      | .ok m =>
          let (out, eff) := callWithModel api (.real m) service endpoint mockResult net
          (out, { eff with factoryLookups := eff.factoryLookups + 1,
                           validationsRun := eff.validationsRun + 1 })
  | none => (.ok (.env (TurtlResponse.Error "Invalid data")), { factoryLookups := 1 })

/-- The argument of `call`. The source classifies it by
`modelOrData._schema != undefined && typeof modelOrData._schema === "object"`:
`raw` stands for arguments failing that test (no `_schema` own property, or
one loosely equal to `undefined`, or a non-object one) and is treated as
field data; `mdl` is a real model instance (its `_schema` is the schema
object); `pseudoArg` is any other object passing the test. -/
inductive CallArg where
  | raw (fields : ModelFields)
  | mdl (m : ModelState)
  | pseudoArg (p : PseudoModel)

/-- What one `call` invocation produces: the settled outcome (`.error` for
a thrown exception / rejected promise), the dispatcher state after the
in-place header mutations, and the ghost effects. -/
structure CallResult where
  outcome : Except String CallRet
  api : TurtlAPI
  effects : Effects

/-- `fullName.split(".")`. -/
def splitDotAux : List Char → List Char → List String
  | [], acc => [String.mk acc.reverse]
  | c :: cs, acc =>
      if c == '.' then String.mk acc.reverse :: splitDotAux cs []
      else splitDotAux cs (c :: acc)

def jsSplitDot (s : String) : List String := splitDotAux s.toList []

/-- `TurtlAPI.call(fullName, modelOrData = {}, mockResult = false)`.
The first part inlines `#getDataFromFullName`: destructure the split into
service and endpoint name (the endpoint part is `undefined` when the name
has no dot), look the service up, then the endpoint via
`service.getEndpoint` (whose TypeError on a miss propagates); either miss
returns an Error envelope naming the missing entity. Then the global
headers are merged into the (shared, stored) endpoint descriptor, and the
argument is classified and dispatched. -/
def call (api : TurtlAPI) (fullName : String) (modelOrData : CallArg)
    (mockResult : Bool) (net : TurtlResponse) : CallResult :=
  let parts := jsSplitDot fullName
  let serviceName := parts.headD ""
  let endpointName : Option String := parts.get? 1
  match mapGet api.services serviceName with
  | none =>
      { outcome := .ok (.env (TurtlResponse.Error
          ("Service '" ++ serviceName ++ "' not found."))),
        api := api, effects := {} }
  | some service =>
      match getEndpoint service endpointName with
      | .error e => { outcome := .error e, api := api, effects := {} }
      | .ok (none, _) =>
          { outcome := .ok (.env (TurtlResponse.Error
              ("Endpoint '" ++ endpointName.getD "undefined" ++ "' not found in service '" ++
                serviceName ++ "'."))),
            api := api, effects := {} }
      | .ok (some endpoint, service2) =>
          let endpoint2 : Endpoint :=
            { endpoint with headers := jsObjMergeAbsent endpoint.headers api.headers }
          let service3 : Service :=
            { service2 with endpoints := mapSet service2.endpoints (endpointName.getD "") endpoint2 }
          let api2 : TurtlAPI := { api with services := mapSet api.services serviceName service3 }
          match modelOrData with
          | .raw fields =>
              let (out, eff) := callWithData api2 fields service3 endpoint2 mockResult net
              { outcome := out, api := api2, effects := eff }
          | .mdl m =>
              let (out, eff) := callWithModel api2 (.real m) service3 endpoint2 mockResult net
              { outcome := out, api := api2, effects := eff }
          | .pseudoArg p =>
              let (out, eff) := callWithModel api2 (.pseudo p) service3 endpoint2 mockResult net
              { outcome := out, api := api2, effects := eff }

/-- `call` with its default `mockResult = false` (the source signature's
default). -/
def callDefault (api : TurtlAPI) (fullName : String) (arg : CallArg)
    (net : TurtlResponse) : CallResult :=
  call api fullName arg false net

/- Concrete fixtures used by the witnesses and counterexamples below,
mirroring the repository's own demo setup (an account service with a login
endpoint). -/

/-- A plain login endpoint. -/
def demoEndpoint : Endpoint := { name := "login", path := "/login.php" }

/-- An account service holding it, without service-level headers. -/
def demoService : Service :=
  { name := "account", basePath := "/account", endpoints := [("login", demoEndpoint)] }

/-- A non-mock dispatcher with that service. -/
def demoAPI : TurtlAPI := { host := "http://h", services := [("account", demoService)] }

/-- A model that failed validation, as the validity-gate claims need one. -/
def invalidModel : ModelState :=
  { fields := [], schema := [], validateResult := TurtlResponse.Error "bad", isValid := false }

/-- A model that passed validation (what the `empty` factory produces). -/
def validModel : ModelState :=
  { fields := [], schema := [],
    validateResult := TurtlResponse.Success "Validation successful" emptyObj, isValid := true }

/-- A transport outcome standing in for a successful round-trip. -/
def netOk : TurtlResponse := TurtlResponse.Success "net" emptyObj

/-- The account service again, but carrying a service-level header — the
configuration under which a missing endpoint crashes the lookup. -/
def headeredService : Service :=
  { name := "account", basePath := "/account", endpoints := [("login", demoEndpoint)],
    headers := [("X-Service", "1")] }

/-- A dispatcher holding the headered service. -/
def headeredAPI : TurtlAPI := { host := "h", services := [("account", headeredService)] }

/-- C1 counterexample input: a schema whose only entry names the

unregistered rule "nope". -/
def c1Schema : Schema := [("f", .rules [{ rule := "nope" }])]

/-- C1, counterexample. The claim says that for every schema and input,
naming an unregistered rule makes the model's `validateResult` a failing
envelope, not an exception. On the code, constructing a model whose schema
names the unregistered rule "nope" with the dispatcher's built-in registry
attached throws `Error("Validation rule not found: nope")` from
`getValidationRule` — construction never produces a model. -/
theorem c1_counterexample :
    mkRequestModel [] c1Schema none (some builtinRules)
      = .error "Validation rule not found: nope" := by rfl

/-- C1, amended: with a dispatcher reference attached (the normal path —
factories inject the api), a schema entry naming a rule missing from the
registry makes model construction throw the registry's
"Validation rule not found" error; the failing "not registered" envelope
is produced only when the model is constructed without a dispatcher
reference, in which case every named rule takes that path and the model's
`validateResult` carries the envelope with `isValid` false. -/
theorem c1_unregistered_rule (reg : Registry) (r k : String) (data : ModelFields)
    (h : mapHas reg r = false) :
    mkRequestModel data [(k, .rules [{ rule := r }])] none (some reg)
        = .error ("Validation rule not found: " ++ r)
    ∧ mkRequestModel data [(k, .rules [{ rule := r }])] none none
        = .ok { fields := data, schema := [(k, .rules [{ rule := r }])],
                validateResult :=
                  TurtlResponse.Error ("Validation rule '" ++ r ++ "' not registered."),
                isValid := false } := by
  have hm : mapGet reg r = none := by
    cases hg : mapGet reg r with
    | none => rfl
    | some f => simp [mapHas, hg] at h
  constructor
  · simp [mkRequestModel, validateFields, validateFieldsGo, runFieldRules,
      getValidationRule, hm]
  · simp [mkRequestModel, validateFields, validateFieldsGo, runFieldRules,
      TurtlResponse.Error]

/-- C1 witness: the amended statement at the built-in registry and the rule
name "ghostRule". -/
theorem c1_unregistered_rule_witness :
    mapHas builtinRules "ghostRule" = false
    ∧ (mkRequestModel [] [("f", .rules [{ rule := "ghostRule" }])] none (some builtinRules)
          = .error ("Validation rule not found: " ++ "ghostRule")
      ∧ mkRequestModel [] [("f", .rules [{ rule := "ghostRule" }])] none none
          = .ok { fields := [], schema := [("f", .rules [{ rule := "ghostRule" }])],
                  validateResult :=
                    TurtlResponse.Error ("Validation rule '" ++ "ghostRule" ++ "' not registered."),
                  isValid := false }) :=
  ⟨by rfl, c1_unregistered_rule builtinRules "ghostRule" "f" [] (by rfl)⟩

/-- C2: whenever the call name resolves to a service and an endpoint and
the supplied request model's `isValid` is false, `call` returns the model's
stored `validateResult` envelope, and the effects record is empty: no
transport request was attempted, no mock response was produced, the
dispatch stage was never entered and no factory lookup or validation ran. -/
theorem c2_invalid_model_short_circuit
    (api : TurtlAPI) (fullName svcName epName : String) (service : Service)
    (endpoint : Endpoint) (m : ModelState) (mockResult : Bool) (net : TurtlResponse)
    (hsplit : jsSplitDot fullName = [svcName, epName])
    (hsvc : mapGet api.services svcName = some service)
    (hep : mapGet service.endpoints epName = some endpoint)
    (hinv : m.isValid = false) :
    (call api fullName (.mdl m) mockResult net).outcome = .ok (.env m.validateResult)
    ∧ (call api fullName (.mdl m) mockResult net).effects = {} := by
  constructor <;>
    simp [call, hsplit, hsvc, getEndpoint, hep, callWithModel, modelIsValid,
      modelValidateResult, hinv]

/-- C2 witness: the invalid model against the demo dispatcher. -/
theorem c2_invalid_model_short_circuit_witness :
    jsSplitDot "account.login" = ["account", "login"]
    ∧ mapGet demoAPI.services "account" = some demoService
    ∧ mapGet demoService.endpoints "login" = some demoEndpoint
    ∧ invalidModel.isValid = false
    ∧ ((call demoAPI "account.login" (.mdl invalidModel) false netOk).outcome
          = .ok (.env invalidModel.validateResult)
      ∧ (call demoAPI "account.login" (.mdl invalidModel) false netOk).effects = {}) :=
  ⟨by rfl, by rfl, by rfl, by rfl,
    c2_invalid_model_short_circuit demoAPI "account.login" "account" "login" demoService
      demoEndpoint invalidModel false netOk (by rfl) (by rfl) (by rfl) (by rfl)⟩

/-- C3: rules run in sequence and validation short-circuits on the first
failing rule. First, in general: whenever the first rule of the first
schema field resolves to a function whose result is a failing envelope,
`validateFields` adopts exactly that envelope and the trace shows that this
was the only rule ever invoked — the field's remaining rules and all later
fields are never evaluated. Second, the spec's concrete instance: for the
schema `email: [required, email]` with input `email = ""` and the built-in
registry, validation fails with the required rule's "Field is required."
envelope and only `(email, required)` is in the trace, so the email rule
never ran. -/
theorem c3_first_failure_short_circuits :
    (∀ (reg : Registry) (k : String) (e : RuleEntry) (rest : List RuleEntry)
        (moreFields : Schema) (inst : ModelFields) (f : RuleFn),
        mapGet reg e.rule = some f →
        (f (jsGet inst k) inst (e.options.getD {})).success = false →
        validateFields ((k, .rules (e :: rest)) :: moreFields) inst (some reg)
          = .ok (f (jsGet inst k) inst (e.options.getD {}), [(k, e.rule)]))
    ∧ validateFields [("email", .rules [{ rule := "required" }, { rule := "email" }])]
        [("email", .str "")] (some builtinRules)
        = .ok (TurtlResponse.Error "Field is required.", [("email", "required")]) := by
  constructor
  · intro reg k e rest moreFields inst f hf hfail
    simp [validateFields, validateFieldsGo, runFieldRules, getValidationRule, hf, hfail]
  · rfl

/-- C3 witness: the general short-circuit statement instantiated at the
built-in registry, the required rule and the empty email input. -/
theorem c3_first_failure_short_circuits_witness :
    mapGet builtinRules "required" = some requiredRule
    ∧ (requiredRule (jsGet [("email", JValue.str "")] "email") [("email", JValue.str "")]
        ({} : RuleOptions)).success = false
    ∧ validateFields
        [("email", .rules [({ rule := "required" } : RuleEntry), { rule := "email" }])]
        [("email", .str "")] (some builtinRules)
        = .ok (requiredRule (jsGet [("email", JValue.str "")] "email")
                 [("email", JValue.str "")] ({} : RuleOptions),
               [("email", "required")]) :=
  ⟨by rfl, by rfl,
    c3_first_failure_short_circuits.1 builtinRules "email" { rule := "required" }
      [{ rule := "email" }] [] [("email", .str "")] requiredRule (by rfl) (by rfl)⟩

/-- C4: in mock mode with a valid model, `call`'s `mockResult` flag
defaults to false — `callDefault` is `call` at `mockResult = false` and
takes the mock failure branch — and passing `mockResult = true` against an
endpoint with a configured `mockResponseSuccess` returns that configured
payload (invoking it with the model when it is a function; an awaitable is
modelled by its resolved value), with the transport never engaged and
exactly one mock log group emitted. -/
theorem c4_mock_result_flag
    (api : TurtlAPI) (fullName svcName epName : String) (service : Service)
    (endpoint : Endpoint) (m : ModelState) (mv : MockVal) (net : TurtlResponse)
    (hsplit : jsSplitDot fullName = [svcName, epName])
    (hsvc : mapGet api.services svcName = some service)
    (hep : mapGet service.endpoints epName = some endpoint)
    (hmock : api.mock = true)
    (hvalid : m.isValid = true)
    (hms : endpoint.mockResponseSuccess = some mv) :
    (callDefault api fullName (.mdl m) net = call api fullName (.mdl m) false net
      ∧ (callDefault api fullName (.mdl m) net).effects.mockBranchSuccess = some false
      ∧ (callDefault api fullName (.mdl m) net).effects.transportSent = false)
    ∧ ((call api fullName (.mdl m) true net).outcome
          = .ok (.env (match mv with | .fn f => f (.real m) | .val r => r))
      ∧ (call api fullName (.mdl m) true net).effects.transportSent = false
      ∧ (call api fullName (.mdl m) true net).effects.mockLogs = 1) := by
  refine ⟨⟨rfl, ?_, ?_⟩, ?_, ?_, ?_⟩ <;>
    cases mv <;>
    cases hmf : endpoint.mockResponseFailure <;>
    simp [callDefault, call, hsplit, hsvc, getEndpoint, hep, callWithModel, modelIsValid,
      hvalid, prepareSendRequest, hmock, hms, hmf, createMockResponse, toDataObjectEx,
      Except.map]

/-- A mock success payload shaped like the demo's login response. -/
def mockLoginResponse : TurtlResponse :=
  TurtlResponse.Success "Mock login"
    (JValue.obj none [("user", JValue.obj none [("id", JValue.num 1)])])

/-- A login endpoint configured with mock responses. -/
def mockEndpoint : Endpoint :=
  { name := "login", path := "/login.php",
    mockResponseSuccess := some (.val mockLoginResponse),
    mockResponseFailure := some (.val (TurtlResponse.Error "Mock login failure")) }

/-- The account service holding the mock endpoint. -/
def mockService : Service :=
  { name := "account", basePath := "/account", endpoints := [("login", mockEndpoint)] }

/-- A dispatcher in mock mode. -/
def mockAPI : TurtlAPI := { host := "h", mock := true, services := [("account", mockService)] }

/-- C4 witness: the mock dispatcher's login endpoint with its configured
success payload. -/
theorem c4_mock_result_flag_witness :
    jsSplitDot "account.login" = ["account", "login"]
    ∧ mapGet mockAPI.services "account" = some mockService
    ∧ mapGet mockService.endpoints "login" = some mockEndpoint
    ∧ mockAPI.mock = true
    ∧ validModel.isValid = true
    ∧ mockEndpoint.mockResponseSuccess = some (.val mockLoginResponse)
    ∧ ((callDefault mockAPI "account.login" (.mdl validModel) netOk
            = call mockAPI "account.login" (.mdl validModel) false netOk
        ∧ (callDefault mockAPI "account.login" (.mdl validModel) netOk).effects.mockBranchSuccess
            = some false
        ∧ (callDefault mockAPI "account.login" (.mdl validModel) netOk).effects.transportSent
            = false)
      ∧ ((call mockAPI "account.login" (.mdl validModel) true netOk).outcome
            = .ok (.env (match (MockVal.val mockLoginResponse) with
                          | .fn f => f (.real validModel) | .val r => r))
        ∧ (call mockAPI "account.login" (.mdl validModel) true netOk).effects.transportSent
            = false
        ∧ (call mockAPI "account.login" (.mdl validModel) true netOk).effects.mockLogs = 1)) :=
  ⟨by rfl, by rfl, by rfl, by rfl, by rfl, by rfl,
    c4_mock_result_flag mockAPI "account.login" "account" "login" mockService mockEndpoint
      validModel (.val mockLoginResponse) netOk (by rfl) (by rfl) (by rfl) (by rfl) (by rfl)
      (by rfl)⟩

/-- C5: the code at the failing input, against the claim. Resolving
`"account.ghost"` on a dispatcher whose account service carries a
service-level header does not return the "Endpoint not found" envelope the
claim promises for every unresolved name: `getEndpoint`'s header-merge loop
reads `endpoint.headers` with `endpoint` being `undefined` and throws a
TypeError, which leaves `call` with a rejected promise instead of an
envelope. -/
theorem c5_endpoint_miss_throws :
    (call headeredAPI "account.ghost" (.raw []) false netOk).outcome = .error "TypeError"
    ∧ headeredService.headers = [("X-Service", "1")]
    ∧ mapGet headeredService.endpoints "ghost" = none := by
  exact ⟨by rfl, by rfl, by rfl⟩

/-- A replacement rule function used by the registration theorems. -/
def overwriteRule : RuleFn := fun _ _ _ => TurtlResponse.Success

/-- C6: the code at the failing input. Re-registering "required" over the
constructor-seeded registry does replace the stored function — lookup
afterwards returns the new one — but emits zero warnings, because the
`name in this.validationRules` guard consults the `Map` object's
properties, never its entries; dually, a first-time registration under the
`Map.prototype` property name "get" emits a spurious warning. The claim's
"exactly one warning on every overwrite" fails on both counts. -/
theorem c6_overwrite_warning_miscount :
    mapHas builtinRules "required" = true
    ∧ (registerValidationRule builtinRules "required" overwriteRule).2 = 0
    ∧ mapGet (registerValidationRule builtinRules "required" overwriteRule).1 "required"
        = some overwriteRule
    ∧ mapHas builtinRules "get" = false
    ∧ (registerValidationRule builtinRules "get" overwriteRule).2 = 1 := by
  exact ⟨by rfl, by rfl, by rfl, by rfl, by rfl⟩

/-- Filtering an association list by a key predicate acts on lookups as the
predicate on the looked-up key. -/
theorem mapGet_filter_keys (ex : List String) (l : List (String × α)) (k : String) :
    mapGet (l.filter fun p => !(ex.contains p.1)) k
      = if ex.contains k then none else mapGet l k := by
  induction l with
  | nil => by_cases hc : k ∈ ex <;> simp [mapGet, hc]
  | cons p rest ih =>
    obtain ⟨k2, v⟩ := p
    by_cases hm2 : k2 ∈ ex <;> by_cases hk : k2 = k <;>
      simp_all [List.filter_cons, mapGet]

/-- Every model `mkRequestModel` actually constructs carries exactly the
caller-supplied data as its own data fields. -/
theorem mkRequestModel_fields (data : ModelFields) (schema : Schema)
    (custom : Option CustomValidator) (api : Option Registry) (m : ModelState)
    (hm : mkRequestModel data schema custom api = .ok m) : m.fields = data := by
  unfold mkRequestModel at hm
  cases hv : validateFields schema data api with
  | error e => rw [hv] at hm; cases hm
  | ok p =>
    rw [hv] at hm
    obtain ⟨result, tr⟩ := p
    dsimp at hm
    split at hm
    · cases hm; rfl
    · split at hm
      · split at hm <;> (cases hm; rfl)
      · cases hm; rfl

/-- C7, counterexample. The claim lists five keys `toDataObject` excludes
and promises every other caller field is kept; the code also excludes
`getErrorMessage`. A model built from the data `{getErrorMessage: "x"}`
with an empty schema validates fine, yet its `toDataObject()` is empty —
the caller field is dropped although it is none of the claim's five keys. -/
theorem c7_counterexample :
    mkRequestModel [("getErrorMessage", JValue.str "x")] [] none none
      = .ok { fields := [("getErrorMessage", JValue.str "x")], schema := [],
              validateResult := TurtlResponse.Success "Validation successful" emptyObj,
              isValid := true }
    ∧ toDataObject
        { fields := [("getErrorMessage", JValue.str "x")], schema := [],
          validateResult := TurtlResponse.Success "Validation successful" emptyObj,
          isValid := true } = []
    ∧ ("getErrorMessage" ∈ excludedKeys
        ∧ "getErrorMessage" ∉ ["_schema", "_customValidator", "_api", "validateResult",
            "isValid"]) := by
  exact ⟨by rfl, by rfl, by decide, by decide⟩

/-- C7, amended: for every model the constructor produces, `toDataObject`
never contains the keys `_schema`, `_customValidator`, `_api`,
`validateResult`, `isValid` nor `getErrorMessage`, and maps every other
caller-supplied field exactly as the data supplies it. -/
theorem c7_to_data_object_excludes
    (data : ModelFields) (schema : Schema) (custom : Option CustomValidator)
    (api : Option Registry) (m : ModelState)
    (hm : mkRequestModel data schema custom api = .ok m) :
    ∀ k, mapGet (toDataObject m) k
        = if excludedKeys.contains k then none else mapGet data k := by
  intro k
  rw [toDataObject, mkRequestModel_fields data schema custom api m hm,
    mapGet_filter_keys]

/-- C7 witness: a model from `{email: "a@b.c"}` with an empty schema; its
`toDataObject` keeps the email field and drops `_schema`. -/
theorem c7_to_data_object_excludes_witness :
    mkRequestModel [("email", JValue.str "a@b.c")] [] none none
      = .ok { fields := [("email", JValue.str "a@b.c")], schema := [],
              validateResult := TurtlResponse.Success "Validation successful" emptyObj,
              isValid := true }
    ∧ ∀ k, mapGet (toDataObject
          { fields := [("email", JValue.str "a@b.c")], schema := [],
            validateResult := TurtlResponse.Success "Validation successful" emptyObj,
            isValid := true }) k
        = if excludedKeys.contains k then none
          else mapGet [("email", JValue.str "a@b.c")] k :=
  ⟨by rfl,
    c7_to_data_object_excludes [("email", JValue.str "a@b.c")] [] none none _ (by rfl)⟩

/-- C8: for every resolving non-mock call of an endpoint requiring auth
with a valid model, when the token provider is absent or yields no (truthy)
token, `call` resolves to the failing "Authentication required." envelope
and `xhr.send` is never reached. -/
theorem c8_auth_required_no_transport
    (api : TurtlAPI) (fullName svcName epName : String) (service : Service)
    (endpoint : Endpoint) (m : ModelState) (mockResult : Bool) (net : TurtlResponse)
    (hsplit : jsSplitDot fullName = [svcName, epName])
    (hsvc : mapGet api.services svcName = some service)
    (hep : mapGet service.endpoints epName = some endpoint)
    (hmock : api.mock = false)
    (hauth : endpoint.requiresAuth = true)
    (hvalid : m.isValid = true)
    (htok : hasToken api.getAuthToken = false) :
    (call api fullName (.mdl m) mockResult net).outcome
      = .ok (.env (TurtlResponse.Error "Authentication required."))
    ∧ (call api fullName (.mdl m) mockResult net).effects.transportSent = false := by
  constructor <;>
    simp [call, hsplit, hsvc, getEndpoint, hep, callWithModel, modelIsValid, hvalid,
      prepareSendRequest, hmock, toDataObjectEx, sendRequest, hauth, htok, Except.map]

/-- The endpoint, service and tokenless dispatcher for the C8 witness. -/
def authEndpoint : Endpoint := { name := "me", path := "/me", requiresAuth := true }

def authService : Service :=
  { name := "user", basePath := "/user", endpoints := [("me", authEndpoint)] }

def authAPI : TurtlAPI := { host := "h", services := [("user", authService)] }

/-- C8 witness: a valid model against the auth-requiring endpoint of a
dispatcher configured without a token provider. -/
theorem c8_auth_required_no_transport_witness :
    jsSplitDot "user.me" = ["user", "me"]
    ∧ mapGet authAPI.services "user" = some authService
    ∧ mapGet authService.endpoints "me" = some authEndpoint
    ∧ authAPI.mock = false
    ∧ authEndpoint.requiresAuth = true
    ∧ validModel.isValid = true
    ∧ hasToken authAPI.getAuthToken = false
    ∧ ((call authAPI "user.me" (.mdl validModel) false netOk).outcome
          = .ok (.env (TurtlResponse.Error "Authentication required."))
      ∧ (call authAPI "user.me" (.mdl validModel) false netOk).effects.transportSent
          = false) :=
  ⟨by rfl, by rfl, by rfl, by rfl, by rfl, by rfl, by rfl,
    c8_auth_required_no_transport authAPI "user.me" "user" "me" authService authEndpoint
      validModel false netOk (by rfl) (by rfl) (by rfl) (by rfl) (by rfl) (by rfl) (by rfl)⟩

/-- C9: an argument whose `_schema` is a defined object is used directly as
the request model by every resolving `call`: no model-factory lookup and no
schema validation ever run; when the `isValid` property it carries is
absent or falsy, `call` returns its `validateResult` property as-is (an
arbitrary value, not necessarily an envelope); when `isValid` is truthy,
the dispatch stage (`#prepareSendRequest`) is entered with the argument,
still without any validation having run. -/
theorem c9_pseudo_model_bypass
    (api : TurtlAPI) (fullName svcName epName : String) (service : Service)
    (endpoint : Endpoint) (p : PseudoModel) (mockResult : Bool) (net : TurtlResponse)
    (hsplit : jsSplitDot fullName = [svcName, epName])
    (hsvc : mapGet api.services svcName = some service)
    (hep : mapGet service.endpoints epName = some endpoint) :
    ((call api fullName (.pseudoArg p) mockResult net).effects.factoryLookups = 0
      ∧ (call api fullName (.pseudoArg p) mockResult net).effects.validationsRun = 0)
    ∧ (jsTruthy p.isValid = false →
        (call api fullName (.pseudoArg p) mockResult net).outcome
          = .ok (.jsval p.validateResult))
    ∧ (jsTruthy p.isValid = true →
        (call api fullName (.pseudoArg p) mockResult net).effects.dispatched = true) := by
  cases hb : jsTruthy p.isValid <;>
    cases hm : api.mock <;>
    cases mockResult <;>
    refine ⟨⟨?_, ?_⟩, ?_, ?_⟩ <;>
    simp [call, hsplit, hsvc, getEndpoint, hep, callWithModel, modelIsValid, hb,
      modelValidateResult, prepareSendRequest, hm, createMockResponse, toDataObjectEx]

/-- A model-test-passing object with no (hence falsy) `isValid` and a
non-envelope `validateResult`. -/
def pseudoFalsy : PseudoModel := { validateResult := .str "oops" }

/-- A model-test-passing object with a truthy `isValid`. -/
def pseudoTruthy : PseudoModel := { isValid := .boolean true }

/-- C9 witness: the falsy pseudo-model's raw string `validateResult` comes
back as-is (not an envelope), and the truthy one reaches the dispatch
stage — both against the demo dispatcher, with zero factory lookups and
validations. -/
theorem c9_pseudo_model_bypass_witness :
    jsSplitDot "account.login" = ["account", "login"]
    ∧ mapGet demoAPI.services "account" = some demoService
    ∧ mapGet demoService.endpoints "login" = some demoEndpoint
    ∧ jsTruthy pseudoFalsy.isValid = false
    ∧ jsTruthy pseudoTruthy.isValid = true
    ∧ (call demoAPI "account.login" (.pseudoArg pseudoFalsy) false netOk).outcome
        = .ok (.jsval (.str "oops"))
    ∧ (call demoAPI "account.login" (.pseudoArg pseudoTruthy) false netOk).effects.dispatched
        = true
    ∧ (call demoAPI "account.login" (.pseudoArg pseudoTruthy) false netOk).effects.validationsRun
        = 0 :=
  ⟨by rfl, by rfl, by rfl, by rfl, by rfl,
    (c9_pseudo_model_bypass demoAPI "account.login" "account" "login" demoService
        demoEndpoint pseudoFalsy false netOk (by rfl) (by rfl) (by rfl)).2.1 (by rfl),
    (c9_pseudo_model_bypass demoAPI "account.login" "account" "login" demoService
        demoEndpoint pseudoTruthy false netOk (by rfl) (by rfl) (by rfl)).2.2 (by rfl),
    (c9_pseudo_model_bypass demoAPI "account.login" "account" "login" demoService
        demoEndpoint pseudoTruthy false netOk (by rfl) (by rfl) (by rfl)).1.2⟩

/-- Peeling one entry off the header-merge loop. -/
theorem jsObjMergeAbsent_cons (acc : List (String × String)) (kv : String × String)
    (m : List (String × String)) :
    jsObjMergeAbsent acc (kv :: m)
      = jsObjMergeAbsent (if jsObjIn kv.1 acc then acc else acc ++ [kv]) m := rfl

/-- Association-list lookup distributes over append. -/
theorem mapGet_append (l1 l2 : List (String × α)) (k : String) :
    mapGet (l1 ++ l2) k
      = match mapGet l1 k with
        | some v => some v
        | none => mapGet l2 k := by
  induction l1 with
  | nil => simp [mapGet]
  | cons p rest ih =>
    obtain ⟨k2, v⟩ := p
    by_cases hk : k2 = k <;> simp [mapGet, hk, ih]

/-- A key that `in` does not see is not an own key either. -/
theorem mapGet_none_of_not_jsObjIn {obj : List (String × String)} {k : String}
    (h : jsObjIn k obj = false) : mapGet obj k = none := by
  induction obj with
  | nil => rfl
  | cons p rest ih =>
    obtain ⟨k2, v⟩ := p
    simp only [jsObjIn, List.any_cons, Bool.or_eq_false_iff] at h ih
    simp [mapGet, ih ⟨h.1.2, h.2⟩]
    intro hk
    simp [hk] at h

/-- The header-merge loop never changes the lookup of a key that `in`
already sees on the target object (own or inherited). -/
theorem jsObjMergeAbsent_lookup_present (m : List (String × String)) :
    ∀ (acc : List (String × String)) (k : String), jsObjIn k acc = true →
      mapGet (jsObjMergeAbsent acc m) k = mapGet acc k := by
  induction m with
  | nil => intro acc k _; rfl
  | cons kv rest ih =>
    intro acc k h
    obtain ⟨k2, v⟩ := kv
    rw [jsObjMergeAbsent_cons]
    by_cases hin : jsObjIn k2 acc = true
    · rw [if_pos hin]
      exact ih acc k h
    · rw [if_neg hin]
      have hk2 : k2 ≠ k := by
        intro hkk
        rw [hkk] at hin
        exact hin h
      have h2 : jsObjIn k (acc ++ [(k2, v)]) = true := by
        simp only [jsObjIn, List.any_append, Bool.or_eq_true] at h ⊢
        rcases h with h3 | h3
        · exact Or.inl (Or.inl h3)
        · exact Or.inr h3
      rw [ih (acc ++ [(k2, v)]) k h2, mapGet_append]
      cases hg : mapGet acc k with
      | some w => rfl
      | none => simp [mapGet, hk2]

/-- The header-merge loop writes exactly the entries of the merged-in map
whose keys `in` does not already see on the target: for such keys the
result's lookup is the map's lookup. -/
theorem jsObjMergeAbsent_lookup_absent (m : List (String × String)) :
    ∀ (obj : List (String × String)) (k : String), jsObjIn k obj = false →
      mapGet (jsObjMergeAbsent obj m) k = mapGet m k := by
  induction m with
  | nil =>
    intro obj k h
    exact (mapGet_none_of_not_jsObjIn h).symm ▸ rfl
  | cons kv rest ih =>
    intro obj k h
    obtain ⟨k2, v⟩ := kv
    rw [jsObjMergeAbsent_cons]
    by_cases hk : k2 = k
    · subst hk
      rw [if_neg (by rw [h]; exact Bool.false_ne_true)]
      have h2 : jsObjIn k2 (obj ++ [(k2, v)]) = true := by
        simp [jsObjIn, List.any_append]
      rw [jsObjMergeAbsent_lookup_present rest (obj ++ [(k2, v)]) k2 h2, mapGet_append,
        mapGet_none_of_not_jsObjIn h]
      simp [mapGet]
    · by_cases hin : jsObjIn k2 obj = true
      · rw [if_pos hin, ih obj k h]
        simp [mapGet, hk]
      · rw [if_neg hin]
        have h2 : jsObjIn k (obj ++ [(k2, v)]) = false := by
          simp only [jsObjIn, List.any_append, Bool.or_eq_false_iff] at h ⊢
          refine ⟨⟨h.1, ?_⟩, h.2⟩
          simp [List.any_cons, hk]
        rw [ih (obj ++ [(k2, v)]) k h2]
        simp [mapGet, hk]

/-- An endpoint with an empty own header map. -/
def plainEndpoint : Endpoint := { name := "e", path := "/e" }

/-- A service whose only header's name collides with an
`Object.prototype` property. -/
def protoHeaderService : Service :=
  { name := "s", basePath := "", endpoints := [("e", plainEndpoint)],
    headers := [("toString", "1")] }

/-- C10, counterexample. The claim says every `getEndpoint` writes the
service's header entries into the stored endpoint's header map for keys
not already present there. The service header "toString" is not a key of
the endpoint's (empty) own header map, yet `getEndpoint` leaves the stored
descriptor unchanged: the guard `key in endpoint.headers` sees the
inherited `Object.prototype.toString` and skips the write. -/
theorem c10_counterexample :
    mapGet protoHeaderService.headers "toString" = some "1"
    ∧ mapGet plainEndpoint.headers "toString" = none
    ∧ getEndpoint protoHeaderService (some "e")
        = .ok (some plainEndpoint, protoHeaderService) := by
  exact ⟨by rfl, by rfl, by rfl⟩

/-- C10, amended: endpoint descriptors are mutated in place by lookup.
Every `getEndpoint` merges the service's header entries — and every `call`
additionally the dispatcher's global ones — into the stored endpoint's own
header map, writing exactly the keys the JavaScript `in` operator does not
already see there (own keys, or names inherited from `Object.prototype`
such as `toString`, are skipped); the merged descriptor replaces the
stored one, so the entries persist for all later lookups. The first
conjunct shows `getEndpoint` returning and storing the service-merged
descriptor; the second shows `call`'s resulting dispatcher state storing
the descriptor with the global headers merged on top, whatever the
argument and mode; the third characterizes the written entries. -/
theorem c10_header_merge_mutates_shared
    (api : TurtlAPI) (fullName svcName epName : String) (service : Service)
    (endpoint : Endpoint) (arg : CallArg) (mockResult : Bool) (net : TurtlResponse)
    (hsplit : jsSplitDot fullName = [svcName, epName])
    (hsvc : mapGet api.services svcName = some service)
    (hep : mapGet service.endpoints epName = some endpoint) :
    getEndpoint service (some epName)
      = .ok (some { endpoint with headers := jsObjMergeAbsent endpoint.headers service.headers },
          { service with endpoints := (mapSet service.endpoints epName
              { endpoint with headers := jsObjMergeAbsent endpoint.headers service.headers }) })
    ∧ (call api fullName arg mockResult net).api
      = { api with services := (mapSet api.services svcName
          { service with endpoints := (mapSet
              (mapSet service.endpoints epName
                { endpoint with headers := jsObjMergeAbsent endpoint.headers service.headers })
              epName
              { endpoint with headers := (jsObjMergeAbsent
                  (jsObjMergeAbsent endpoint.headers service.headers) api.headers) }) }) }
    ∧ ∀ (obj hm : List (String × String)) (k : String), jsObjIn k obj = false →
        mapGet (jsObjMergeAbsent obj hm) k = mapGet hm k := by
  refine ⟨by simp [getEndpoint, hep], ?_,
    fun obj hm k h => jsObjMergeAbsent_lookup_absent hm obj k h⟩
  cases arg <;>
    simp [call, hsplit, hsvc, getEndpoint, hep]

/-- The endpoint, service and dispatcher for the C10 witness: a header at
each of the three levels. -/
def mergeEndpoint : Endpoint := { name := "login", path := "/l", headers := [("E", "e")] }

def mergeService : Service :=
  { name := "account", basePath := "/a", endpoints := [("login", mergeEndpoint)],
    headers := [("S", "s")] }

def mergeAPI : TurtlAPI :=
  { host := "h", services := [("account", mergeService)], headers := [("G", "g")] }

/-- C10 witness: the amended statement at a dispatcher with one header on
each level. -/
theorem c10_header_merge_mutates_shared_witness :
    jsSplitDot "account.login" = ["account", "login"]
    ∧ mapGet mergeAPI.services "account" = some mergeService
    ∧ mapGet mergeService.endpoints "login" = some mergeEndpoint
    ∧ (getEndpoint mergeService (some "login")
        = .ok (some { mergeEndpoint with
              headers := jsObjMergeAbsent mergeEndpoint.headers mergeService.headers },
            { mergeService with endpoints := (mapSet mergeService.endpoints "login"
                { mergeEndpoint with
                  headers := jsObjMergeAbsent mergeEndpoint.headers mergeService.headers }) })
      ∧ (call mergeAPI "account.login" (.raw []) false netOk).api
        = { mergeAPI with services := (mapSet mergeAPI.services "account"
            { mergeService with endpoints := (mapSet
                (mapSet mergeService.endpoints "login"
                  { mergeEndpoint with
                    headers := jsObjMergeAbsent mergeEndpoint.headers mergeService.headers })
                "login"
                { mergeEndpoint with headers := (jsObjMergeAbsent
                    (jsObjMergeAbsent mergeEndpoint.headers mergeService.headers)
                    mergeAPI.headers) }) }) }
      ∧ ∀ (obj hm : List (String × String)) (k : String), jsObjIn k obj = false →
          mapGet (jsObjMergeAbsent obj hm) k = mapGet hm k) :=
  ⟨by rfl, by rfl, by rfl,
    c10_header_merge_mutates_shared mergeAPI "account.login" "account" "login" mergeService
      mergeEndpoint (.raw []) false netOk (by rfl) (by rfl) (by rfl)⟩

end Turtl
